import Mathlib

/-!
Shallow embedding of the document-confirmation workflow of the visitor and
event management application, together with theorems settling the frozen
claims about it.

The embedding models the relational tables touched by the confirmation
tracker as Lean lists of records, and the client-side operations
(`fetchConfirmations` on the admin dashboard, `fetchConfirmationStatus` and
`checkAllDocumentsConfirmed` / `handleConfirmation` on the landing page,
`handleUploadVersion` and `setCurrentVersion` on the documents admin page,
`handleSaveAssignments` and `handleFileUpload` on the visitors admin page)
as pure functions over that state, translated query by query from the
source.  JavaScript objects used as maps (last assignment wins) are modelled
by `jsLookup`, which finds the last binding of a key.
-/

namespace VisitorApp

/-- A row of the `document_types` table. -/
structure DocumentType where
  id : Nat
  name : String
  requires_confirmation : Bool
deriving DecidableEq

/-- A row of the `documents` table. -/
structure Document where
  id : Nat
  document_type_id : Nat
deriving DecidableEq

/-- A row of the `document_versions` table. -/
structure DocumentVersion where
  id : Nat
  document_id : Nat
  version_number : Nat
  is_current : Bool
deriving DecidableEq

/-- A row of the `document_events` join table (document assigned to event). -/
structure DocumentEvent where
  document_id : Nat
  event_id : Nat
deriving DecidableEq

/-- A row of the `events` table (dates are modelled as naturals, ordered as
the ISO date strings the code compares are). -/
structure Event where
  id : Nat
  start_date : Nat
deriving DecidableEq

/-- A row of the `visitors` table. -/
structure Visitor where
  id : Nat
  first_name : String
  last_name : String
deriving DecidableEq

/-- A row of the `event_visitors` join table, carrying the RSVP status. -/
structure EventVisitor where
  event_id : Nat
  visitor_id : Nat
  rsvp_status : String
deriving DecidableEq

/-- A row of the `visitor_confirmations` table. -/
structure VisitorConfirmation where
  visitor_id : Nat
  event_id : Nat
  document_id : Nat
  document_version_id : Nat
deriving DecidableEq

/-- The database state seen by the confirmation tracker. -/
structure DB where
  document_types : List DocumentType
  documents : List Document
  document_versions : List DocumentVersion
  document_events : List DocumentEvent
  events : List Event
  visitors : List Visitor
  event_visitors : List EventVisitor
  visitor_confirmations : List VisitorConfirmation
deriving DecidableEq

/-- Lookup in a JavaScript object built by successive assignments: the last
binding of a key wins. -/
def jsLookup {α β : Type} [BEq α] (pairs : List (α × β)) (k : α) : Option β :=
  (pairs.reverse.find? (fun p => p.1 == k)).map (fun p => p.2)

/-! ### Version mutation (src/app/admin/documents/page.tsx) -/

/-- First step of `handleUploadVersion`: the update that sets
`is_current = false` on every existing version of the document. -/
def clearCurrentVersions (db : DB) (docId : Nat) : DB :=
  { db with document_versions := db.document_versions.map (fun v =>
      if v.document_id == docId then { v with is_current := false } else v) }

/-- Modelled from the spec: the `get_next_version_number` database procedure
called by `handleUploadVersion` is not part of the repository sources; the
spec says version numbers are monotonically increasing, so it is modelled as
one more than the largest existing version number of the document. -/
def nextVersionNumber (db : DB) (docId : Nat) : Nat :=
  ((db.document_versions.filter (fun v => v.document_id == docId)).map
    (fun v => v.version_number)).foldl max 0 + 1

/-- Second step of `handleUploadVersion`: the insert of the new version row
with `is_current = true`. -/
def insertNewVersion (db : DB) (docId newVersionId : Nat) : DB :=
  { db with document_versions := db.document_versions ++
      [{ id := newVersionId, document_id := docId,
         version_number := nextVersionNumber db docId, is_current := true }] }

/-- From `handleUploadVersion`: clear the `is_current` flags of the document's
versions, then insert the new current version.  The two steps are separate
database statements in the source; the intermediate state is
`clearCurrentVersions db docId`. -/
def handleUploadVersion (db : DB) (docId newVersionId : Nat) : DB :=
  insertNewVersion (clearCurrentVersions db docId) docId newVersionId

/-- Modelled from the spec: the `set_current_version` database procedure
invoked by the client-side `setCurrentVersion` is not part of the repository
sources; the spec says it flips `is_current` across the version set of one
document in a single atomic transition so that exactly the target row ends
up current. -/
def setCurrentVersion (db : DB) (versionId : Nat) : DB :=
  match db.document_versions.find? (fun v => v.id == versionId) with
  | none => db
  | some target =>
      { db with document_versions := db.document_versions.map (fun v =>
          if v.document_id == target.document_id then
            { v with is_current := v.id == versionId }
          else v) }

/-- Creation of a document with its first version (`handleSaveDocument`,
non-editing branch): insert the document row, then insert version 1 with
`is_current = true`. -/
def handleSaveDocument (db : DB) (docId typeId versionId : Nat) : DB :=
  let db1 : DB := { db with documents := db.documents ++
      [{ id := docId, document_type_id := typeId }] }
  { db1 with document_versions := db1.document_versions ++
      [{ id := versionId, document_id := docId, version_number := 1,
         is_current := true }] }

/-- Exactly one version of the document has `is_current = true`. -/
def currentUnique (db : DB) (docId : Nat) : Prop :=
  (db.document_versions.filter
    (fun v => v.document_id == docId && v.is_current)).length = 1

instance (db : DB) (docId : Nat) : Decidable (currentUnique db docId) := by
  unfold currentUnique; infer_instance

/-- The document has at least one version row. -/
def hasVersion (db : DB) (docId : Nat) : Prop :=
  ∃ v ∈ db.document_versions, v.document_id = docId

instance (db : DB) (docId : Nat) : Decidable (hasVersion db docId) := by
  unfold hasVersion; infer_instance

/-- A database with one document (id 100) of type 1 whose single version
(id 200) is current, used to exercise the clear-then-set transition. -/
def exUploadDB : DB :=
  { document_types := [{ id := 1, name := "Safety", requires_confirmation := true }]
    documents := [{ id := 100, document_type_id := 1 }]
    document_versions := [{ id := 200, document_id := 100, version_number := 1,
                            is_current := true }]
    document_events := []
    events := []
    visitors := []
    event_visitors := []
    visitor_confirmations := [] }

/-- C3: `handleUploadVersion` enforces current-version uniqueness only at the
endpoints of the transition.  For document 100 with one current version,
uniqueness holds before the call and after it completes, but in the state a
reader can observe between the clear update and the insert the document
still has a version yet has zero current versions, violating the claimed
invariant. -/
theorem currentUnique_violated_between_clear_and_set :
    currentUnique exUploadDB 100 ∧
    hasVersion (clearCurrentVersions exUploadDB 100) 100 ∧
    ¬ currentUnique (clearCurrentVersions exUploadDB 100) 100 ∧
    currentUnique (handleUploadVersion exUploadDB 100 201) 100 := by
  decide

/-! ### Frame property of version changes over confirmations -/

/-- C7: a version change never deletes or mutates a `visitor_confirmations`
row.  Both steps of `handleUploadVersion` (including the intermediate state)
and `setCurrentVersion` leave the confirmations table identical, so a
confirmation can change status only through the `is_current` flags it is
compared against. -/
theorem versionChange_preserves_confirmations (db : DB)
    (docId newVersionId versionId : Nat) :
    (clearCurrentVersions db docId).visitor_confirmations =
      db.visitor_confirmations ∧
    (handleUploadVersion db docId newVersionId).visitor_confirmations =
      db.visitor_confirmations ∧
    (setCurrentVersion db versionId).visitor_confirmations =
      db.visitor_confirmations := by
  refine ⟨rfl, rfl, ?_⟩
  unfold setCurrentVersion
  cases db.document_versions.find? (fun v => v.id == versionId) <;> rfl

/-! ### Event assignment (handleSaveAssignments, visitors admin page) -/

/-- From `handleSaveAssignments`: delete every `event_visitors` row of the
visitor, then insert one row per selected event with status "invited". -/
def handleSaveAssignments (db : DB) (visitorId : Nat) (selected : List Nat) :
    DB :=
  let afterDelete := db.event_visitors.filter
    (fun ev => !(ev.visitor_id == visitorId))
  { db with event_visitors := afterDelete ++ selected.map (fun e =>
      { event_id := e, visitor_id := visitorId, rsvp_status := "invited" }) }

/-- C8: after `handleSaveAssignments`, the visitor's rows are exactly one
"invited" row per selected event (so any prior status, "confirmed"
included, is reset), and the rows of every other visitor are untouched. -/
theorem handleSaveAssignments_resets_to_invited (db : DB) (visitorId : Nat)
    (selected : List Nat) :
    ((handleSaveAssignments db visitorId selected).event_visitors.filter
        (fun ev => ev.visitor_id == visitorId)) =
      selected.map (fun e =>
        { event_id := e, visitor_id := visitorId,
          rsvp_status := "invited" : EventVisitor }) ∧
    ((handleSaveAssignments db visitorId selected).event_visitors.filter
        (fun ev => !(ev.visitor_id == visitorId))) =
      db.event_visitors.filter (fun ev => !(ev.visitor_id == visitorId)) ∧
    ∀ ev ∈ (handleSaveAssignments db visitorId selected).event_visitors,
      ev.visitor_id = visitorId → ev.rsvp_status = "invited" := by
  simp only [handleSaveAssignments]
  refine ⟨?_, ?_, ?_⟩
  · rw [List.filter_append, List.filter_filter]
    have h1 : (db.event_visitors.filter fun a =>
        (a.visitor_id == visitorId) && !(a.visitor_id == visitorId)) = [] := by
      apply List.filter_eq_nil_iff.mpr
      intro a _
      cases h : a.visitor_id == visitorId <;> simp [h]
    have h2 : List.filter (fun ev => ev.visitor_id == visitorId)
        (selected.map (fun e =>
          { event_id := e, visitor_id := visitorId,
            rsvp_status := "invited" : EventVisitor })) =
        selected.map (fun e =>
          { event_id := e, visitor_id := visitorId,
            rsvp_status := "invited" : EventVisitor }) := by
      apply List.filter_eq_self.mpr
      intro a ha
      obtain ⟨e, _, rfl⟩ := List.mem_map.mp ha
      simp
    rw [h1, h2, List.nil_append]
  · rw [List.filter_append, List.filter_filter]
    have h1 : (db.event_visitors.filter fun a =>
        !(a.visitor_id == visitorId) && !(a.visitor_id == visitorId)) =
        db.event_visitors.filter fun a => !(a.visitor_id == visitorId) := by
      apply List.filter_congr
      intro a _
      exact Bool.and_self _
    have h2 : List.filter (fun ev => !(ev.visitor_id == visitorId))
        (selected.map (fun e =>
          { event_id := e, visitor_id := visitorId,
            rsvp_status := "invited" : EventVisitor })) = [] := by
      apply List.filter_eq_nil_iff.mpr
      intro a ha
      obtain ⟨e, _, rfl⟩ := List.mem_map.mp ha
      simp
    rw [h1, h2, List.append_nil]
  · intro ev hev hid
    rcases List.mem_append.mp hev with h | h
    · exact absurd ((List.mem_filter.mp h).2) (by simp [hid])
    · obtain ⟨e, _, rfl⟩ := List.mem_map.mp h
      rfl

/-! ### Required-document resolution

`fetchConfirmations` (admin dashboard) and `checkAllDocumentsConfirmed`
(landing page) each compute the set of required documents of an event: the
documents assigned to the event whose type requires confirmation. -/

/-- Ids of the document types with `requires_confirmation = true`
(`requiredTypeIds` in both fetchConfirmations and
checkAllDocumentsConfirmed). -/
def requiredTypeIds (db : DB) : List Nat :=
  (db.document_types.filter (fun t => t.requires_confirmation)).map
    (fun t => t.id)

/-- From `fetchConfirmations`: the per-event list `requiredDocsPerEvent[eventId]`,
built from the `document_events` rows of the event joined with their
`documents` row, keeping the documents whose type requires confirmation. -/
def requiredDocsForEvent (db : DB) (eventId : Nat) : List Nat :=
  (db.document_events.filter (fun ed => ed.event_id == eventId)).filterMap
    (fun ed =>
      (db.documents.find? (fun dd => dd.id == ed.document_id)).bind (fun doc =>
        if (requiredTypeIds db).contains doc.document_type_id then
          some doc.id
        else none))

/-- From `checkAllDocumentsConfirmed`: the ids of the documents assigned to the
event (`eventDocIds`). -/
def eventDocIds (db : DB) (eventId : Nat) : List Nat :=
  (db.document_events.filter (fun ed => ed.event_id == eventId)).map
    (fun ed => ed.document_id)

/-- From `checkAllDocumentsConfirmed`: the ids of the required documents
(`requiredDocs`), i.e. documents assigned to the event whose type is among
the confirmation-requiring types. -/
def requiredDocIdsCheck (db : DB) (eventId : Nat) : List Nat :=
  (db.documents.filter (fun d =>
    (eventDocIds db eventId).contains d.id &&
      (requiredTypeIds db).contains d.document_type_id)).map (fun d => d.id)

/-- From `fetchConfirmations`: the `currentVersionMap` entry of a document — the
id of its last fetched version with `is_current = true` (a JavaScript
object keeps the last assignment). -/
def currentVersionOf (db : DB) (docId : Nat) : Option Nat :=
  ((db.document_versions.filter (fun v => v.is_current)).reverse.find?
    (fun v => v.document_id == docId)).map (fun v => v.id)

/-- From `fetchConfirmations`: the `confirmationMap` entry of a document for a
visitor and event — the last fetched confirmation row wins. -/
def lastConfFor (db : DB) (visitorId eventId docId : Nat) :
    Option VisitorConfirmation :=
  (db.visitor_confirmations.filter (fun c =>
    c.visitor_id == visitorId && c.event_id == eventId &&
      c.document_id == docId)).getLast?

/-- The visitor's recorded confirmation for the document (the one the
dashboard's map retains) references a version other than the document's
current version. -/
def staleDoc (db : DB) (visitorId eventId docId : Nat) : Bool :=
  match lastConfFor db visitorId eventId docId with
  | some c => some c.document_version_id != currentVersionOf db docId
  | none => false

/-- Number of required documents for which the visitor has a confirmation
(at any version) — the dashboard's `confirmedCount` tally, extensionally. -/
def confirmedCountSpec (db : DB) (visitorId eventId : Nat) : Nat :=
  ((requiredDocsForEvent db eventId).filter (fun d =>
    (lastConfFor db visitorId eventId d).isSome)).length

/-- One step of the dashboard's loop over `requiredDocs`: increment
`confirmedCount` when the map has a confirmation for the document, and
set `hasOutdated` when that confirmation is not at the current version. -/
def tallyDoc (db : DB) (visitorId eventId : Nat) (acc : Nat × Bool)
    (docId : Nat) : Nat × Bool :=
  match lastConfFor db visitorId eventId docId with
  | some c =>
      (acc.1 + 1, acc.2 || (some c.document_version_id !=
        currentVersionOf db docId))
  | none => acc

/-- The dashboard's `(confirmedCount, hasOutdated)` accumulation over the
required documents of the event. -/
def confirmedAndOutdated (db : DB) (visitorId eventId : Nat)
    (docs : List Nat) : Nat × Bool :=
  docs.foldl (tallyDoc db visitorId eventId) (0, false)

/-- One row of the dashboard's Pending Confirmations table. -/
structure ConfirmationRow where
  event_id : Nat
  visitor_id : Nat
  required_docs : Nat
  confirmed_docs : Nat
  has_outdated : Bool
deriving DecidableEq

/-- The row `fetchConfirmations` pushes for one `event_visitors` record: the
event must be among the fetched upcoming events, the joined visitor must
exist, the event must have required documents, and the visitor is listed
only when `confirmedCount < requiredDocs.length || hasOutdated`. -/
def pendingRowFor (db : DB) (events : List Nat) (ev : EventVisitor) :
    Option ConfirmationRow :=
  if events.contains ev.event_id then
    if (db.visitors.find? (fun vis => vis.id == ev.visitor_id)).isSome then
      let requiredDocs := requiredDocsForEvent db ev.event_id
      if requiredDocs.isEmpty then none
      else
        let cc := confirmedAndOutdated db ev.visitor_id ev.event_id
          requiredDocs
        if cc.1 < requiredDocs.length ∨ cc.2 = true then
          some { event_id := ev.event_id, visitor_id := ev.visitor_id,
                 required_docs := requiredDocs.length,
                 confirmed_docs := cc.1, has_outdated := cc.2 }
        else none
    else none
  else none

/-- From `fetchConfirmations`: the rows of the Pending Confirmations list (before
the final sort, which only permutes them), with `events` the ids of the
fetched next three upcoming events. -/
def pendingRows (db : DB) (events : List Nat) : List ConfirmationRow :=
  db.event_visitors.filterMap (pendingRowFor db events)

/-! ### RSVP completion check (src/components/landing/features.tsx) -/

/-- From `checkAllDocumentsConfirmed`: the current versions of the required
documents of the event (`currentVersions`). -/
def currentVersionsCheck (db : DB) (eventId : Nat) : List DocumentVersion :=
  db.document_versions.filter (fun ver =>
    (requiredDocIdsCheck db eventId).contains ver.document_id &&
      ver.is_current)

/-- From `checkAllDocumentsConfirmed`: the visitor's confirmation rows for the
event that reference one of those current versions (`confirmations`). -/
def confsCheck (db : DB) (visitorId eventId : Nat) :
    List VisitorConfirmation :=
  db.visitor_confirmations.filter (fun c =>
    c.visitor_id == visitorId && c.event_id == eventId &&
      ((currentVersionsCheck db eventId).map (fun ver => ver.id)).contains
        c.document_version_id)

/-- From `checkAllDocumentsConfirmed`: after a confirmation is recorded, if every
early-return guard passes and the number of the visitor's confirmation rows
referencing current versions of required documents is at least the number of
those current versions, set the visitor's `rsvp_status` for the event to
"confirmed". -/
def checkAllDocumentsConfirmed (db : DB) (visitorId eventId : Nat) : DB :=
  if (requiredTypeIds db).isEmpty then db else
  if (eventDocIds db eventId).isEmpty then db else
  if (requiredDocIdsCheck db eventId).isEmpty then db else
  if (currentVersionsCheck db eventId).isEmpty then db else
  if (currentVersionsCheck db eventId).length ≤
      (confsCheck db visitorId eventId).length then
    { db with event_visitors := db.event_visitors.map (fun ev =>
        if ev.visitor_id == visitorId && ev.event_id == eventId then
          { ev with rsvp_status := "confirmed" }
        else ev) }
  else db

/-- From `handleConfirmation`: the inserted immutable `visitor_confirmations`
row. -/
def insertConfirmation (db : DB) (visitorId eventId docId versionId : Nat) :
    DB :=
  { db with visitor_confirmations := db.visitor_confirmations ++
      [{ visitor_id := visitorId, event_id := eventId,
         document_id := docId, document_version_id := versionId }] }

/-- From `handleConfirmation`: insert one immutable `visitor_confirmations` row,
then run `checkAllDocumentsConfirmed` for the visitor and event. -/
def handleConfirmation (db : DB) (visitorId eventId docId versionId : Nat) :
    DB :=
  checkAllDocumentsConfirmed
    (insertConfirmation db visitorId eventId docId versionId)
    visitorId eventId

/-! ### Visitor-facing confirmation status (features.tsx) -/

/-- From `fetchConfirmationStatus`: the documents assigned to the event (`docs`,
the documents whose id occurs in the event's `document_events` rows). -/
def statusDocs (db : DB) (e : Nat) : List Document :=
  db.documents.filter (fun d =>
    ((db.document_events.filter (fun de => de.event_id == e)).map
      (fun de => de.document_id)).contains d.id)

/-- From `fetchConfirmationStatus`: the current versions of the documents
assigned to the event (`versions`). -/
def statusVersions (db : DB) (e : Nat) : List DocumentVersion :=
  db.document_versions.filter (fun ver =>
    ((statusDocs db e).map (fun d => d.id)).contains ver.document_id &&
      ver.is_current)

/-- From `fetchConfirmationStatus`: the visitor's fetched confirmations — only
rows whose `document_version_id` is among the current version ids
(`confirmations`). -/
def statusConfirmations (db : DB) (e v : Nat) : List VisitorConfirmation :=
  db.visitor_confirmations.filter (fun c =>
    c.visitor_id == v && c.event_id == e &&
      ((statusVersions db e).map (fun ver => ver.id)).contains
        c.document_version_id)

/-- From `fetchConfirmationStatus`: the `typeNameMap` object. -/
def typeNameOf (db : DB) (t : Nat) : Option String :=
  jsLookup (db.document_types.map (fun dt => (dt.id, dt.name))) t

/-- From `fetchConfirmationStatus`: the `typeRequiresConfirmation` object
(`?? false` mirrors the source's null coalescing). -/
def typeRequiresOf (db : DB) (t : Nat) : Bool :=
  (jsLookup (db.document_types.map (fun dt =>
    (dt.id, dt.requires_confirmation))) t).getD false

/-- From `fetchConfirmationStatus`: the `requiresConfirmationTypes` set — names of
the types of the assigned documents whose type requires confirmation. -/
def statusRequiredTypes (db : DB) (e : Nat) : List String :=
  (statusDocs db e).filterMap (fun d =>
    if typeRequiresOf db d.document_type_id then
      typeNameOf db d.document_type_id
    else none)

/-- From `fetchConfirmationStatus`: the `confirmedTypes` set — names of the types
of documents the visitor confirmed at the current version. -/
def statusConfirmedTypes (db : DB) (e v : Nat) : List String :=
  (statusConfirmations db e v).filterMap (fun c =>
    if some c.document_version_id ==
        jsLookup ((statusVersions db e).map (fun ver =>
          (ver.document_id, ver.id))) c.document_id then
      (jsLookup ((statusDocs db e).map (fun dd =>
        (dd.id, dd.document_type_id))) c.document_id).bind (typeNameOf db)
    else none)

/-- From `fetchConfirmationStatus`: compute the pair of document-type-name sets
`(requiresConfirmationDocTypes, confirmedDocTypes)` for the visitor and
event, `([], [])` when either id is missing or when the early return for an
event with no assigned documents leaves the initial empty state.  Only
confirmations referencing a current version of a document assigned to the
event are fetched, so a stale confirmation never reaches
`confirmedDocTypes`. -/
def fetchConfirmationStatus (db : DB) (eventId visitorId : Option Nat) :
    List String × List String :=
  match eventId, visitorId with
  | some e, some v =>
      if (db.document_events.filter (fun de => de.event_id == e)).isEmpty then
        ([], [])
      else (statusRequiredTypes db e, statusConfirmedTypes db e v)
  | _, _ => ([], [])

/-- The landing page (`Home`, part_009): the id of the visitor's next
upcoming event — among the visitor's `event_visitors` rows, the joined event
with `start_date ≥ today` that has the smallest start date.  `none` when the
visitor has no qualifying assignment; the `Features` component then receives
a null `eventId`. -/
def upcomingEventId (db : DB) (visitorId today : Nat) : Option Nat :=
  let joined := (db.event_visitors.filter (fun ev =>
    ev.visitor_id == visitorId)).filterMap (fun ev =>
      (db.events.find? (fun e => e.id == ev.event_id)).bind (fun e =>
        if today ≤ e.start_date then some e else none))
  (joined.foldl (fun acc e =>
    match acc with
    | none => some e
    | some b => if e.start_date < b.start_date then some e else acc)
    none).map (fun e => e.id)

/-! ### Helper lemmas -/

/-- Membership in `List.contains` for types with lawful boolean equality. -/
lemma contains_iff_mem {α : Type} [BEq α] [LawfulBEq α] (l : List α) (a : α) :
    l.contains a = true ↔ a ∈ l :=
  List.elem_iff

/-- A nodup list included in another list is no longer than it. -/
lemma length_le_of_nodup_subset {l1 l2 : List Nat} (h1 : l1.Nodup)
    (h2 : ∀ x ∈ l1, x ∈ l2) : l1.length ≤ l2.length := by
  calc l1.length = l1.toFinset.card := (List.toFinset_card_of_nodup h1).symm
    _ ≤ l2.toFinset.card := by
        apply Finset.card_le_card
        intro x hx
        rw [List.mem_toFinset] at hx ⊢
        exact h2 x hx
    _ ≤ l2.length := List.toFinset_card_le l2

/-- A nodup list included in another list while missing one of its members
is strictly shorter than it. -/
lemma length_lt_of_nodup_subset_missing {l1 l2 : List Nat} (h1 : l1.Nodup)
    (h2 : ∀ x ∈ l1, x ∈ l2) {a : Nat} (ha : a ∈ l2) (hna : a ∉ l1) :
    l1.length < l2.length := by
  have hcard : l1.toFinset.card ≤ (l2.toFinset.erase a).card := by
    apply Finset.card_le_card
    intro x hx
    rw [List.mem_toFinset] at hx
    rw [Finset.mem_erase, List.mem_toFinset]
    exact ⟨fun hxa => hna (hxa ▸ hx), h2 x hx⟩
  have herase : (l2.toFinset.erase a).card = l2.toFinset.card - 1 :=
    Finset.card_erase_of_mem (List.mem_toFinset.mpr ha)
  have hpos : 0 < l2.toFinset.card :=
    Finset.card_pos.mpr ⟨a, List.mem_toFinset.mpr ha⟩
  have hlen : l2.toFinset.card ≤ l2.length := List.toFinset_card_le l2
  have h1' : l1.toFinset.card = l1.length := List.toFinset_card_of_nodup h1
  omega

/-- Shrinking the filter condition yields a sublist of the filtered list. -/
lemma filter_sublist_filter_of_imp {α : Type} {p q : α → Bool} (l : List α)
    (h : ∀ a, p a = true → q a = true) :
    List.Sublist (List.filter p l) (List.filter q l) := by
  induction l with
  | nil => simp
  | cons a t ih =>
      by_cases hp : p a = true
      · rw [List.filter_cons, if_pos hp, List.filter_cons, if_pos (h a hp)]
        exact List.Sublist.cons₂ a ih
      · rw [List.filter_cons, if_neg hp, List.filter_cons]
        by_cases hq : q a = true
        · rw [if_pos hq]; exact List.Sublist.cons a ih
        · rw [if_neg hq]; exact ih

/-! ### Example databases -/

/-- Event 5 has two documents: 100 of type 1 (requires confirmation) and
101 of type 2 (does not). -/
def exRequiredDB : DB :=
  { document_types := [{ id := 1, name := "Safety", requires_confirmation := true },
                       { id := 2, name := "Directions", requires_confirmation := false }]
    documents := [{ id := 100, document_type_id := 1 },
                  { id := 101, document_type_id := 2 }]
    document_versions := [{ id := 200, document_id := 100, version_number := 1,
                            is_current := true },
                          { id := 201, document_id := 101, version_number := 1,
                            is_current := true }]
    document_events := [{ document_id := 100, event_id := 5 },
                        { document_id := 101, event_id := 5 }]
    events := [{ id := 5, start_date := 30 }]
    visitors := []
    event_visitors := []
    visitor_confirmations := [] }

/-- Visitor 7 confirmed required document 100 of event 5 at version 200,
but version 201 is now current: the confirmation is stale. -/
def exStaleDB : DB :=
  { document_types := [{ id := 1, name := "Safety", requires_confirmation := true }]
    documents := [{ id := 100, document_type_id := 1 }]
    document_versions := [{ id := 200, document_id := 100, version_number := 1,
                            is_current := false },
                          { id := 201, document_id := 100, version_number := 2,
                            is_current := true }]
    document_events := [{ document_id := 100, event_id := 5 }]
    events := [{ id := 5, start_date := 30 }]
    visitors := [{ id := 7, first_name := "A", last_name := "B" }]
    event_visitors := [{ event_id := 5, visitor_id := 7, rsvp_status := "invited" }]
    visitor_confirmations := [{ visitor_id := 7, event_id := 5,
                                document_id := 100, document_version_id := 200 }] }

/-- Event 5 requires documents 100 and 101 (both of type 1, both with a
current version); visitor 7 is invited and has confirmed document 100 at
its current version 200, while 101 is unconfirmed. -/
def exTwoDocsDB : DB :=
  { document_types := [{ id := 1, name := "T", requires_confirmation := true }]
    documents := [{ id := 100, document_type_id := 1 },
                  { id := 101, document_type_id := 1 }]
    document_versions := [{ id := 200, document_id := 100, version_number := 1,
                            is_current := true },
                          { id := 201, document_id := 101, version_number := 1,
                            is_current := true }]
    document_events := [{ document_id := 100, event_id := 5 },
                        { document_id := 101, event_id := 5 }]
    events := [{ id := 5, start_date := 30 }]
    visitors := [{ id := 7, first_name := "A", last_name := "B" }]
    event_visitors := [{ event_id := 5, visitor_id := 7, rsvp_status := "invited" }]
    visitor_confirmations := [{ visitor_id := 7, event_id := 5,
                                document_id := 100, document_version_id := 200 }] }

/-- Like `exTwoDocsDB` but with no confirmation recorded yet. -/
def exTwoDocsNoConfDB : DB :=
  { exTwoDocsDB with visitor_confirmations := [] }

/-- Visitor 7 exists but has no `event_visitors` row at all. -/
def exNoAssignmentDB : DB :=
  { document_types := [{ id := 1, name := "T", requires_confirmation := true }]
    documents := [{ id := 100, document_type_id := 1 }]
    document_versions := [{ id := 200, document_id := 100, version_number := 1,
                            is_current := true }]
    document_events := [{ document_id := 100, event_id := 5 }]
    events := [{ id := 5, start_date := 30 }]
    visitors := [{ id := 7, first_name := "A", last_name := "B" }]
    event_visitors := []
    visitor_confirmations := [] }

/-! ### C4: required-set correctness -/

/-- C4: in both computations of the required set (`fetchConfirmations` on
the dashboard and `checkAllDocumentsConfirmed` on the landing page), a
document id belongs to the required set of an event exactly when the
document is assigned to the event through `document_events` and its type
requires confirmation; so for an event with a document of a
confirmation-requiring type and one of a non-requiring type, the required
set contains exactly the former. -/
theorem requiredSet_characterization (db : DB)
    (hdoc : (db.documents.map (fun d => d.id)).Nodup) (e d : Nat) :
    (d ∈ requiredDocsForEvent db e ↔
      ((∃ ed ∈ db.document_events, ed.event_id = e ∧ ed.document_id = d) ∧
       ∃ doc ∈ db.documents, doc.id = d ∧
         ∃ t ∈ db.document_types, t.id = doc.document_type_id ∧
           t.requires_confirmation = true)) ∧
    (d ∈ requiredDocIdsCheck db e ↔
      ((∃ ed ∈ db.document_events, ed.event_id = e ∧ ed.document_id = d) ∧
       ∃ doc ∈ db.documents, doc.id = d ∧
         ∃ t ∈ db.document_types, t.id = doc.document_type_id ∧
           t.requires_confirmation = true)) := by
  have htype : ∀ tid : Nat, (requiredTypeIds db).contains tid = true ↔
      ∃ t ∈ db.document_types, t.id = tid ∧ t.requires_confirmation = true := by
    intro tid
    rw [contains_iff_mem]
    unfold requiredTypeIds
    simp only [List.mem_map, List.mem_filter]
    constructor
    · rintro ⟨t, ⟨ht, hr⟩, rfl⟩
      exact ⟨t, ht, rfl, hr⟩
    · rintro ⟨t, ht, rfl, hr⟩
      exact ⟨t, ⟨ht, hr⟩, rfl⟩
  constructor
  · unfold requiredDocsForEvent
    rw [List.mem_filterMap]
    constructor
    · rintro ⟨ed, hed, hsome⟩
      rw [List.mem_filter] at hed
      obtain ⟨hed, hede⟩ := hed
      cases hfind : db.documents.find? (fun dd => dd.id == ed.document_id) with
      | none => rw [hfind] at hsome; exact absurd hsome (by simp)
      | some doc =>
          rw [hfind, Option.some_bind] at hsome
          by_cases hreq : (requiredTypeIds db).contains doc.document_type_id = true
          · rw [if_pos hreq] at hsome
            obtain rfl : doc.id = d := Option.some_injective _ hsome
            have hid : (doc.id == ed.document_id) = true := by
              simpa using List.find?_some hfind
            have hmem : doc ∈ db.documents := List.mem_of_find?_eq_some hfind
            exact ⟨⟨ed, hed, eq_of_beq hede, (eq_of_beq hid).symm⟩,
                   doc, hmem, rfl, (htype doc.document_type_id).mp hreq⟩
          · rw [if_neg hreq] at hsome
            exact absurd hsome (by simp)
    · rintro ⟨⟨ed, hed, hede, hedd⟩, doc, hdocmem, hdocid, htid⟩
      refine ⟨ed, List.mem_filter.mpr ⟨hed, by simpa using hede⟩, ?_⟩
      cases hfind : db.documents.find? (fun dd => dd.id == ed.document_id) with
      | none =>
          rw [List.find?_eq_none] at hfind
          exact absurd (by simpa using (hdocid.trans hedd.symm))
            (by simpa using hfind doc hdocmem)
      | some doc2 =>
          have hid2 : doc2.id = ed.document_id := by
            simpa using List.find?_some hfind
          have hmem2 : doc2 ∈ db.documents := List.mem_of_find?_eq_some hfind
          have : doc2 = doc :=
            List.inj_on_of_nodup_map hdoc hmem2 hdocmem
              (by rw [hid2, hdocid, hedd])
          subst this
          rw [Option.some_bind, if_pos ((htype doc2.document_type_id).mpr htid)]
          rw [hid2, hedd]
  · unfold requiredDocIdsCheck
    simp only [List.mem_map, List.mem_filter, Bool.and_eq_true]
    constructor
    · rintro ⟨doc, ⟨hdocmem, hcond1, hcond2⟩, rfl⟩
      have hassign : doc.id ∈ eventDocIds db e := (contains_iff_mem _ _).mp hcond1
      unfold eventDocIds at hassign
      simp only [List.mem_map, List.mem_filter] at hassign
      obtain ⟨ed, ⟨hed, hede⟩, hedd⟩ := hassign
      exact ⟨⟨ed, hed, by simpa using hede, hedd⟩,
             doc, hdocmem, rfl, (htype doc.document_type_id).mp hcond2⟩
    · rintro ⟨⟨ed, hed, hede, hedd⟩, doc, hdocmem, hdocid, htid⟩
      refine ⟨doc, ⟨hdocmem, ?_, (htype doc.document_type_id).mpr htid⟩, hdocid⟩
      rw [contains_iff_mem]
      unfold eventDocIds
      simp only [List.mem_map, List.mem_filter]
      exact ⟨ed, ⟨hed, by simpa using hede⟩, by rw [hedd, hdocid]⟩

/-- Witness for C4 at `exRequiredDB`: document 100 (requiring type) is in
both required sets of event 5, document 101 (non-requiring type) is in
neither. -/
theorem requiredSet_characterization_witness :
    (100 ∈ requiredDocsForEvent exRequiredDB 5 ∧
     100 ∈ requiredDocIdsCheck exRequiredDB 5) ∧
    (101 ∉ requiredDocsForEvent exRequiredDB 5 ∧
     101 ∉ requiredDocIdsCheck exRequiredDB 5) :=
  ⟨⟨((requiredSet_characterization exRequiredDB (by decide) 5 100).1).mpr
      (by decide),
    ((requiredSet_characterization exRequiredDB (by decide) 5 100).2).mpr
      (by decide)⟩,
   ⟨fun h => absurd (((requiredSet_characterization exRequiredDB (by decide)
        5 101).1).mp h) (by decide),
    fun h => absurd (((requiredSet_characterization exRequiredDB (by decide)
        5 101).2).mp h) (by decide)⟩⟩

/-! ### C9 and C1: the Pending Confirmations list -/

/-- The dashboard's per-visitor fold computes the number of required
documents with a recorded confirmation and whether any recorded
confirmation is against a non-current version. -/
lemma foldl_tallyDoc (db : DB) (v e : Nat) (docs : List Nat) (n : Nat)
    (b : Bool) :
    docs.foldl (tallyDoc db v e) (n, b) =
      (n + (docs.filter (fun x => (lastConfFor db v e x).isSome)).length,
       b || docs.any (staleDoc db v e)) := by
  induction docs generalizing n b with
  | nil => simp
  | cons x rest ih =>
      rw [List.foldl_cons, List.any_cons]
      cases h : lastConfFor db v e x with
      | none =>
          have hs : staleDoc db v e x = false := by simp [staleDoc, h]
          have ht : tallyDoc db v e (n, b) x = (n, b) := by
            simp [tallyDoc, h]
          rw [ht, ih, hs, List.filter_cons, if_neg (by simp [h])]
          simp
      | some c =>
          have hs : staleDoc db v e x =
              (some c.document_version_id != currentVersionOf db x) := by
            simp [staleDoc, h]
          have ht : tallyDoc db v e (n, b) x =
              (n + 1, b || (some c.document_version_id !=
                currentVersionOf db x)) := by
            simp [tallyDoc, h]
          rw [ht, ih, hs, List.filter_cons, if_pos (by simp [h])]
          refine Prod.ext ?_ ?_
          · simp only [List.length_cons]
            omega
          · simp only [Bool.or_assoc]

/-- Value of `confirmedAndOutdated` in terms of `confirmedCountSpec` and
`staleDoc`. -/
lemma confirmedAndOutdated_eq (db : DB) (v e : Nat) :
    confirmedAndOutdated db v e (requiredDocsForEvent db e) =
      (confirmedCountSpec db v e,
       (requiredDocsForEvent db e).any (staleDoc db v e)) := by
  unfold confirmedAndOutdated confirmedCountSpec
  rw [foldl_tallyDoc]
  simp

/-- The row `fetchConfirmations` pushes for an `event_visitors` record,
as a single guarded expression. -/
lemma pendingRowFor_spec (db : DB) (events : List Nat) (ev : EventVisitor) :
    pendingRowFor db events ev =
      if ev.event_id ∈ events ∧
         (∃ vis ∈ db.visitors, vis.id = ev.visitor_id) ∧
         requiredDocsForEvent db ev.event_id ≠ [] ∧
         (confirmedCountSpec db ev.visitor_id ev.event_id <
            (requiredDocsForEvent db ev.event_id).length ∨
          (requiredDocsForEvent db ev.event_id).any
            (staleDoc db ev.visitor_id ev.event_id) = true) then
        some { event_id := ev.event_id, visitor_id := ev.visitor_id,
               required_docs := (requiredDocsForEvent db ev.event_id).length,
               confirmed_docs :=
                 confirmedCountSpec db ev.visitor_id ev.event_id,
               has_outdated := (requiredDocsForEvent db ev.event_id).any
                 (staleDoc db ev.visitor_id ev.event_id) }
      else none := by
  simp only [pendingRowFor]
  rw [confirmedAndOutdated_eq]
  by_cases h1 : ev.event_id ∈ events
  · rw [if_pos (by rwa [contains_iff_mem])]
    by_cases h2 : ∃ vis ∈ db.visitors, vis.id = ev.visitor_id
    · rw [if_pos]
      · by_cases h3 : requiredDocsForEvent db ev.event_id = []
        · rw [if_pos (by rw [List.isEmpty_iff]; exact h3)]
          rw [if_neg]
          rintro ⟨-, -, habs, -⟩
          exact habs h3
        · rw [if_neg (by rw [List.isEmpty_iff]; exact h3)]
          by_cases h4 : confirmedCountSpec db ev.visitor_id ev.event_id <
              (requiredDocsForEvent db ev.event_id).length ∨
              (requiredDocsForEvent db ev.event_id).any
                (staleDoc db ev.visitor_id ev.event_id) = true
          · rw [if_pos h4, if_pos ⟨h1, h2, h3, h4⟩]
          · rw [if_neg h4, if_neg]
            rintro ⟨-, -, -, habs⟩
            exact h4 habs
      · rw [List.find?_isSome]
        obtain ⟨vis, hvis, hid⟩ := h2
        exact ⟨vis, hvis, by simpa using hid⟩
    · rw [if_neg, if_neg]
      · rintro ⟨-, habs, -⟩
        exact h2 habs
      · rw [List.find?_isSome]
        rintro ⟨vis, hvis, hid⟩
        exact h2 ⟨vis, hvis, by simpa using hid⟩
  · rw [if_neg (by rw [contains_iff_mem]; exact h1), if_neg]
    rintro ⟨habs, -⟩
    exact h1 habs

/-- C9: a visitor assigned to one of the fetched upcoming events (with an
existing joined visitor row) appears in the Pending Confirmations list
exactly when the event has at least one required document and either the
number of required documents the visitor has a confirmation for is below
the required count, or the visitor's recorded confirmation for some
required document is against a non-current version.  In particular pairs
whose event has no required documents, and fully current-confirmed pairs,
never appear. -/
theorem pending_list_membership (db : DB) (events : List Nat)
    (ev : EventVisitor) (hev : ev ∈ db.event_visitors)
    (he : ev.event_id ∈ events)
    (hvis : ∃ vis ∈ db.visitors, vis.id = ev.visitor_id) :
    (∃ row ∈ pendingRows db events, row.visitor_id = ev.visitor_id ∧
        row.event_id = ev.event_id) ↔
      (requiredDocsForEvent db ev.event_id ≠ [] ∧
        (confirmedCountSpec db ev.visitor_id ev.event_id <
           (requiredDocsForEvent db ev.event_id).length ∨
         ∃ d ∈ requiredDocsForEvent db ev.event_id,
           staleDoc db ev.visitor_id ev.event_id d = true)) := by
  rw [← List.any_eq_true]
  constructor
  · rintro ⟨row, hrow, hrv, hre⟩
    rw [pendingRows, List.mem_filterMap] at hrow
    obtain ⟨ev2, -, hsome⟩ := hrow
    rw [pendingRowFor_spec] at hsome
    by_cases hc : ev2.event_id ∈ events ∧
        (∃ vis ∈ db.visitors, vis.id = ev2.visitor_id) ∧
        requiredDocsForEvent db ev2.event_id ≠ [] ∧
        (confirmedCountSpec db ev2.visitor_id ev2.event_id <
           (requiredDocsForEvent db ev2.event_id).length ∨
         (requiredDocsForEvent db ev2.event_id).any
           (staleDoc db ev2.visitor_id ev2.event_id) = true)
    · rw [if_pos hc] at hsome
      obtain rfl := Option.some_injective _ hsome
      obtain ⟨-, -, h3, h4⟩ := hc
      have hveq : ev2.visitor_id = ev.visitor_id := hrv
      have heeq : ev2.event_id = ev.event_id := hre
      rw [heeq] at h3
      rw [hveq, heeq] at h4
      exact ⟨h3, h4⟩
    · rw [if_neg hc] at hsome
      exact absurd hsome (by simp)
  · rintro ⟨h3, h4⟩
    refine ⟨{ event_id := ev.event_id, visitor_id := ev.visitor_id,
              required_docs := (requiredDocsForEvent db ev.event_id).length,
              confirmed_docs :=
                confirmedCountSpec db ev.visitor_id ev.event_id,
              has_outdated := (requiredDocsForEvent db ev.event_id).any
                (staleDoc db ev.visitor_id ev.event_id) }, ?_, rfl, rfl⟩
    rw [pendingRows, List.mem_filterMap]
    refine ⟨ev, hev, ?_⟩
    rw [pendingRowFor_spec, if_pos ⟨he, hvis, h3, h4⟩]

/-- Witness for C9 at `exStaleDB`: visitor 7 (one required document,
confirmed only at the superseded version 200) appears in the pending list
of event 5. -/
theorem pending_list_membership_witness :
    ∃ row ∈ pendingRows exStaleDB [5], row.visitor_id = 7 ∧
      row.event_id = 5 :=
  (pending_list_membership exStaleDB [5]
    { event_id := 5, visitor_id := 7, rsvp_status := "invited" }
    (by decide) (by decide) (by decide)).mpr (by decide)

/-- Counterexample to C1 as stated: in `exStaleDB` visitor 7's only
confirmation for required document 100 of event 5 references version 200
while version 201 is current.  The dashboard computation does report the
document stale, but it still counts the stale confirmation toward
`confirmedCount`: every produced row has `confirmed_docs = 1`, not the 0
the claim requires. -/
theorem stale_confirmation_still_counted :
    staleDoc exStaleDB 7 5 100 = true ∧
    pendingRows exStaleDB [5] =
      [{ event_id := 5, visitor_id := 7, required_docs := 1,
         confirmed_docs := 1, has_outdated := true }] ∧
    ∀ row ∈ pendingRows exStaleDB [5], row.confirmed_docs ≠ 0 := by
  decide

/-- C1 (amended): when a visitor's recorded confirmation for a required
document references a non-current version, the dashboard computation
reports the document as stale — the visitor appears in the Pending
Confirmations list with `has_outdated = true` — but the stale confirmation
is still counted toward `confirmed_docs` (the count is positive) rather
than excluded from it. -/
theorem stale_confirmation_flags_outdated (db : DB) (events : List Nat)
    (ev : EventVisitor) (d : Nat) (c : VisitorConfirmation)
    (hev : ev ∈ db.event_visitors) (he : ev.event_id ∈ events)
    (hvis : ∃ vis ∈ db.visitors, vis.id = ev.visitor_id)
    (hd : d ∈ requiredDocsForEvent db ev.event_id)
    (hc : lastConfFor db ev.visitor_id ev.event_id d = some c)
    (hstale : some c.document_version_id ≠ currentVersionOf db d) :
    ∃ row ∈ pendingRows db events, row.visitor_id = ev.visitor_id ∧
      row.event_id = ev.event_id ∧ row.has_outdated = true ∧
      0 < row.confirmed_docs := by
  have hsd : staleDoc db ev.visitor_id ev.event_id d = true := by
    rw [staleDoc, hc]
    exact bne_iff_ne.mpr hstale
  have hany : (requiredDocsForEvent db ev.event_id).any
      (staleDoc db ev.visitor_id ev.event_id) = true :=
    List.any_eq_true.mpr ⟨d, hd, hsd⟩
  have hne : requiredDocsForEvent db ev.event_id ≠ [] := by
    intro habs
    rw [habs] at hd
    exact absurd hd (List.not_mem_nil d)
  have hcount : 0 < confirmedCountSpec db ev.visitor_id ev.event_id := by
    unfold confirmedCountSpec
    rw [List.length_pos]
    intro habs
    have : d ∈ ([] : List Nat) := by
      rw [← habs]
      rw [List.mem_filter]
      exact ⟨hd, by rw [hc]; rfl⟩
    exact absurd this (List.not_mem_nil d)
  refine ⟨{ event_id := ev.event_id, visitor_id := ev.visitor_id,
            required_docs := (requiredDocsForEvent db ev.event_id).length,
            confirmed_docs := confirmedCountSpec db ev.visitor_id ev.event_id,
            has_outdated := (requiredDocsForEvent db ev.event_id).any
              (staleDoc db ev.visitor_id ev.event_id) },
          ?_, rfl, rfl, hany, hcount⟩
  rw [pendingRows, List.mem_filterMap]
  refine ⟨ev, hev, ?_⟩
  rw [pendingRowFor_spec, if_pos ⟨he, hvis, hne, Or.inr hany⟩]

/-- Witness for the amended C1 at `exStaleDB`: visitor 7's stale
confirmation for document 100 puts them in the pending list flagged
outdated with a positive confirmed count. -/
theorem stale_confirmation_flags_outdated_witness :
    ∃ row ∈ pendingRows exStaleDB [5], row.visitor_id = 7 ∧
      row.event_id = 5 ∧ row.has_outdated = true ∧
      0 < row.confirmed_docs :=
  stale_confirmation_flags_outdated exStaleDB [5]
    { event_id := 5, visitor_id := 7, rsvp_status := "invited" } 100
    { visitor_id := 7, event_id := 5, document_id := 100,
      document_version_id := 200 }
    (by decide) (by decide) (by decide) (by decide) (by decide) (by decide)

/-! ### C2: completion and the RSVP transition -/

/-- A member of the event's required-document list forces the first two
early-return guards of `checkAllDocumentsConfirmed` to pass. -/
lemma reqCheck_nonempty_consequences {db : DB} {e x : Nat}
    (hx : x ∈ requiredDocIdsCheck db e) :
    requiredTypeIds db ≠ [] ∧ eventDocIds db e ≠ [] := by
  unfold requiredDocIdsCheck at hx
  simp only [List.mem_map, List.mem_filter, Bool.and_eq_true] at hx
  obtain ⟨doc, ⟨-, h1, h2⟩, -⟩ := hx
  rw [contains_iff_mem] at h1 h2
  constructor
  · intro habs; rw [habs] at h2; exact absurd h2 (List.not_mem_nil _)
  · intro habs; rw [habs] at h1; exact absurd h1 (List.not_mem_nil _)

/-- Counterexample to C2 as stated: in `exTwoDocsDB` event 5 requires
documents 100 and 101, visitor 7 has confirmed only document 100 (at its
current version 200), and document 101 has no confirmation at all.
Recording a second, duplicate confirmation for document 100 — not the last
outstanding document — nevertheless flips `rsvp_status` to "confirmed",
because `checkAllDocumentsConfirmed` compares row counts. -/
theorem duplicate_confirmation_flips_rsvp :
    101 ∈ requiredDocIdsCheck exTwoDocsDB 5 ∧
    (∀ c ∈ exTwoDocsDB.visitor_confirmations, c.document_id ≠ 101) ∧
    exTwoDocsDB.event_visitors =
      [{ event_id := 5, visitor_id := 7, rsvp_status := "invited" }] ∧
    (handleConfirmation exTwoDocsDB 7 5 100 200).event_visitors =
      [{ event_id := 5, visitor_id := 7, rsvp_status := "confirmed" }] := by
  decide

/-- C2 (amended): (a) recording a confirmation after which every current
version of a required document is referenced by some confirmation row of
the visitor flips the visitor's `rsvp_status` for the event to "confirmed";
(b) provided the visitor's confirmation rows for the event reference
pairwise distinct versions (no duplicate acknowledgment rows), recording a
confirmation while some required document's current version is still
unreferenced leaves `event_visitors` unchanged.  Without (b)'s
distinctness, duplicate rows can flip the status early
(`duplicate_confirmation_flips_rsvp`). -/
theorem rsvp_transition_characterization (db : DB) (v e d ver : Nat)
    (hverNodup : (db.document_versions.map (fun x => x.id)).Nodup) :
    ((∀ w ∈ db.document_versions, w.is_current = true →
        w.document_id ∈ requiredDocIdsCheck db e →
        ∃ c ∈ (insertConfirmation db v e d ver).visitor_confirmations,
          c.visitor_id = v ∧ c.event_id = e ∧ c.document_version_id = w.id) →
      (∃ w ∈ db.document_versions, w.is_current = true ∧
        w.document_id ∈ requiredDocIdsCheck db e) →
      ∀ evr ∈ (handleConfirmation db v e d ver).event_visitors,
        evr.visitor_id = v → evr.event_id = e →
          evr.rsvp_status = "confirmed") ∧
    ((((insertConfirmation db v e d ver).visitor_confirmations.filter
          (fun c => c.visitor_id == v && c.event_id == e)).map
          (fun c => c.document_version_id)).Nodup →
      (∃ w ∈ db.document_versions, w.is_current = true ∧
        w.document_id ∈ requiredDocIdsCheck db e ∧
        ∀ c ∈ (insertConfirmation db v e d ver).visitor_confirmations,
          c.visitor_id = v → c.event_id = e → c.document_version_id ≠ w.id) →
      (handleConfirmation db v e d ver).event_visitors =
        db.event_visitors) := by
  have hvermem : ∀ w : DocumentVersion, w ∈ currentVersionsCheck db e ↔
      (w ∈ db.document_versions ∧ w.is_current = true ∧
        w.document_id ∈ requiredDocIdsCheck db e) := by
    intro w
    unfold currentVersionsCheck
    rw [List.mem_filter, Bool.and_eq_true, contains_iff_mem]
    tauto
  have hvnodup : ((currentVersionsCheck db e).map
      (fun w => w.id)).Nodup :=
    List.Nodup.sublist
      (List.Sublist.map _ (List.filter_sublist db.document_versions))
      hverNodup
  constructor
  · intro hall hsome evr hmem hv he2
    obtain ⟨w0, hw0mem, hw0cur, hw0req⟩ := hsome
    obtain ⟨htype_ne, hdocs_ne⟩ := reqCheck_nonempty_consequences hw0req
    have hreq_ne : requiredDocIdsCheck db e ≠ [] := by
      intro habs; rw [habs] at hw0req; exact absurd hw0req (List.not_mem_nil _)
    have hcur_ne : currentVersionsCheck db e ≠ [] := by
      intro habs
      have : w0 ∈ currentVersionsCheck db e :=
        (hvermem w0).mpr ⟨hw0mem, hw0cur, hw0req⟩
      rw [habs] at this
      exact absurd this (List.not_mem_nil _)
    have hsubset : ∀ x ∈ (currentVersionsCheck db e).map (fun w => w.id),
        x ∈ (confsCheck (insertConfirmation db v e d ver) v e).map
          (fun c => c.document_version_id) := by
      intro x hx
      obtain ⟨w, hw, rfl⟩ := List.mem_map.mp hx
      obtain ⟨hwmem, hwcur, hwreq⟩ := (hvermem w).mp hw
      obtain ⟨c, hcmem, hcv, hce, hcid⟩ := hall w hwmem hwcur hwreq
      refine List.mem_map.mpr ⟨c, ?_, hcid⟩
      unfold confsCheck
      rw [List.mem_filter]
      refine ⟨hcmem, ?_⟩
      have hin : c.document_version_id ∈
          (currentVersionsCheck (insertConfirmation db v e d ver) e).map
            (fun w2 => w2.id) :=
        List.mem_map.mpr ⟨w, hw, hcid.symm⟩
      simp only [Bool.and_eq_true, beq_iff_eq]
      exact ⟨⟨hcv, hce⟩, (contains_iff_mem _ _).mpr hin⟩
    have hcount : (currentVersionsCheck (insertConfirmation db v e d ver)
        e).length ≤
        (confsCheck (insertConfirmation db v e d ver) v e).length := by
      have h1 : ((currentVersionsCheck db e).map (fun w => w.id)).length ≤
          ((confsCheck (insertConfirmation db v e d ver) v e).map
            (fun c => c.document_version_id)).length :=
        length_le_of_nodup_subset hvnodup hsubset
      rw [List.length_map, List.length_map] at h1
      exact h1
    have g1 : ¬((requiredTypeIds
        (insertConfirmation db v e d ver)).isEmpty = true) := by
      rw [List.isEmpty_iff]; exact htype_ne
    have g2 : ¬((eventDocIds
        (insertConfirmation db v e d ver) e).isEmpty = true) := by
      rw [List.isEmpty_iff]; exact hdocs_ne
    have g3 : ¬((requiredDocIdsCheck
        (insertConfirmation db v e d ver) e).isEmpty = true) := by
      rw [List.isEmpty_iff]; exact hreq_ne
    have g4 : ¬((currentVersionsCheck
        (insertConfirmation db v e d ver) e).isEmpty = true) := by
      rw [List.isEmpty_iff]; exact hcur_ne
    have hresult : handleConfirmation db v e d ver =
        { insertConfirmation db v e d ver with
          event_visitors :=
            (insertConfirmation db v e d ver).event_visitors.map (fun ev =>
              if ev.visitor_id == v && ev.event_id == e then
                { ev with rsvp_status := "confirmed" }
              else ev) } := by
      unfold handleConfirmation checkAllDocumentsConfirmed
      rw [if_neg g1, if_neg g2, if_neg g3, if_neg g4, if_pos hcount]
    rw [hresult] at hmem
    obtain ⟨orig, -, rfl⟩ := List.mem_map.mp hmem
    by_cases hcond : (orig.visitor_id == v && orig.event_id == e) = true
    · rw [if_pos hcond]
    · rw [if_neg hcond] at hv he2
      exact absurd (show (orig.visitor_id == v && orig.event_id == e) = true
        by simp [hv, he2]) hcond
  · intro hnodup hmiss
    obtain ⟨w0, hw0mem, hw0cur, hw0req, hw0nc⟩ := hmiss
    have hAsub : List.Sublist
        ((confsCheck (insertConfirmation db v e d ver) v e).map
          (fun c => c.document_version_id))
        (((insertConfirmation db v e d ver).visitor_confirmations.filter
          (fun c => c.visitor_id == v && c.event_id == e)).map
          (fun c => c.document_version_id)) := by
      apply List.Sublist.map
      apply filter_sublist_filter_of_imp
      intro c hc
      simp only [Bool.and_eq_true] at hc ⊢
      exact hc.1
    have hAnodup : ((confsCheck (insertConfirmation db v e d ver) v e).map
        (fun c => c.document_version_id)).Nodup :=
      List.Nodup.sublist hAsub hnodup
    have hAsubset : ∀ x ∈ (confsCheck (insertConfirmation db v e d ver)
        v e).map (fun c => c.document_version_id),
        x ∈ (currentVersionsCheck db e).map (fun w => w.id) := by
      intro x hx
      obtain ⟨c, hc, rfl⟩ := List.mem_map.mp hx
      unfold confsCheck at hc
      rw [List.mem_filter] at hc
      have hcond := hc.2
      simp only [Bool.and_eq_true] at hcond
      exact (contains_iff_mem _ _).mp hcond.2
    have hw0in : w0.id ∈ (currentVersionsCheck db e).map (fun w => w.id) :=
      List.mem_map.mpr ⟨w0, (hvermem w0).mpr ⟨hw0mem, hw0cur, hw0req⟩, rfl⟩
    have hw0out : w0.id ∉ (confsCheck (insertConfirmation db v e d ver)
        v e).map (fun c => c.document_version_id) := by
      intro habs
      obtain ⟨c, hc, hcid⟩ := List.mem_map.mp habs
      unfold confsCheck at hc
      rw [List.mem_filter] at hc
      have hcond := hc.2
      simp only [Bool.and_eq_true, beq_iff_eq] at hcond
      exact hw0nc c hc.1 hcond.1.1 hcond.1.2 hcid

    have hlt : (confsCheck (insertConfirmation db v e d ver) v e).length <
        (currentVersionsCheck (insertConfirmation db v e d ver) e).length := by
      have h1 := length_lt_of_nodup_subset_missing hAnodup hAsubset
        hw0in hw0out
      rw [List.length_map, List.length_map] at h1
      exact h1
    unfold handleConfirmation checkAllDocumentsConfirmed
    split_ifs with h1 h2 h3 h4 h5
    · rfl
    · rfl
    · rfl
    · rfl
    · exact absurd h5 (Nat.not_le.mpr hlt)
    · rfl

/-- Witness for the amended C2: in `exTwoDocsDB` confirming the last
outstanding document 101 flips visitor 7's status to "confirmed"; in
`exTwoDocsNoConfDB` (no duplicate rows) confirming document 100 while 101
is outstanding leaves the assignments unchanged. -/
theorem rsvp_transition_characterization_witness :
    (∀ evr ∈ (handleConfirmation exTwoDocsDB 7 5 101 201).event_visitors,
        evr.visitor_id = 7 → evr.event_id = 5 →
          evr.rsvp_status = "confirmed") ∧
    (handleConfirmation exTwoDocsNoConfDB 7 5 100 200).event_visitors =
      exTwoDocsNoConfDB.event_visitors :=
  ⟨(rsvp_transition_characterization exTwoDocsDB 7 5 101 201 (by decide)).1
     (by decide) (by decide),
   (rsvp_transition_characterization exTwoDocsNoConfDB 7 5 100 200
     (by decide)).2 (by decide) (by decide)⟩

/-! ### C5: absence of an event assignment is not an error -/

/-- C5: for a visitor with no `event_visitors` row, the landing page
resolves no upcoming event (`upcomingEventId` is `none`), and the
confirmation-status computation — a total function, so no exception is
possible — returns the empty pair: the required set is empty
(`requiredCount = 0`) and nothing is marked confirmed. -/
theorem no_assignment_empty_status (db : DB) (v today : Nat)
    (h : ∀ ev ∈ db.event_visitors, ev.visitor_id ≠ v) :
    upcomingEventId db v today = none ∧
    fetchConfirmationStatus db (upcomingEventId db v today) (some v) =
      ([], []) := by
  have hfilter : db.event_visitors.filter (fun ev => ev.visitor_id == v)
      = [] := by
    apply List.filter_eq_nil_iff.mpr
    intro ev hev
    simp [h ev hev]
  have h1 : upcomingEventId db v today = none := by
    unfold upcomingEventId
    rw [hfilter]
    rfl
  exact ⟨h1, by rw [h1]; rfl⟩

/-- Witness for C5 at `exNoAssignmentDB`: visitor 7 has no assignment row,
so the resolved event is `none` and the status pair is empty. -/
theorem no_assignment_empty_status_witness :
    upcomingEventId exNoAssignmentDB 7 10 = none ∧
    fetchConfirmationStatus exNoAssignmentDB
      (upcomingEventId exNoAssignmentDB 7 10) (some 7) = ([], []) :=
  no_assignment_empty_status exNoAssignmentDB 7 10 (by decide)

/-! ### Bulk visitor import (handleFileUpload, visitors admin page)

The row loop of `handleFileUpload` is embedded as a pure fold over the
spreadsheet's data rows.  The organization and event lookup maps are the
`orgMap`/`eventMap` built before the loop from the loaded companies and
events (lowercased label, id); database inserts are modelled as succeeding,
matching the claims' scenarios, which involve no storage errors. -/

/-- The six cells of one spreadsheet data row, as extracted by
`getCellText` (already trimmed strings). -/
structure ImportRow where
  firstName : String
  lastName : String
  email : String
  phone : String
  orgName : String
  eventName : String
deriving DecidableEq

/-- One entry of the upload error report. -/
structure UploadError where
  row : Nat
  firstName : String
  lastName : String
  reason : String
deriving DecidableEq

/-- The payload of a `visitors` insert performed by the import loop
(an empty phone stands for the null the source inserts). -/
structure CreatedVisitor where
  first_name : String
  last_name : String
  email : String
  phone : String
  company_id : Nat
deriving DecidableEq

/-- The accumulated effects of the import loop: the reported counters and
error list, plus the visitor rows and event assignments inserted. -/
structure ImportState where
  total : Nat
  success : Nat
  errors : List UploadError
  created : List CreatedVisitor
  assignedEvents : List Nat
deriving DecidableEq

/-- All six cells of the row are empty (such rows are skipped). -/
def emptyRow (r : ImportRow) : Bool :=
  r.firstName == "" && r.lastName == "" && r.email == "" &&
    r.phone == "" && r.orgName == "" && r.eventName == ""

/-- The names of the missing required fields of the row (phone is
optional). -/
def missingFields (r : ImportRow) : List String :=
  (if r.firstName == "" then ["First Name"] else []) ++
  (if r.lastName == "" then ["Last Name"] else []) ++
  (if r.email == "" then ["Email"] else []) ++
  (if r.orgName == "" then ["Organization"] else []) ++
  (if r.eventName == "" then ["Event"] else [])

/-- The source's phone format test `^\d{3}-\d{3}-\d{4}$`. -/
def phoneOk (s : String) : Bool :=
  match s.toList with
  | [a, b, c, '-', d, e, f, '-', g, h, i, j] =>
      [a, b, c, d, e, f, g, h, i, j].all Char.isDigit
  | _ => false

/-- The JavaScript `toLowerCase()` applied to the lookup keys, modelled
character by character (the names involved are ASCII). -/
def lowerString (s : String) : String :=
  String.mk (s.data.map Char.toLower)

/-- The `visitors` insert payload of a valid row (`email || null` is
always non-empty here because the row was validated). -/
def payloadOf (om : List (String × Nat)) (r : ImportRow) : CreatedVisitor :=
  { first_name := r.firstName, last_name := r.lastName, email := r.email,
    phone := r.phone,
    company_id := (jsLookup om (lowerString r.orgName)).getD 0 }

/-- One iteration of the import loop at spreadsheet row `rowNum`: skip
all-empty rows; otherwise count the row, validate required fields,
organization lookup, event lookup and phone format in the source's order —
each failure appends exactly one error entry for this row number and stops
the row — and for a valid row insert the visitor and its event assignment
and count a success. -/
def processRow (om em : List (String × Nat)) (st : ImportState)
    (rowNum : Nat) (r : ImportRow) : ImportState :=
  if emptyRow r then st
  else
    if !(missingFields r).isEmpty then
      { st with
        total := st.total + 1
        errors := st.errors ++
          [{ row := rowNum
             firstName := if r.firstName == "" then "(empty)" else r.firstName
             lastName := if r.lastName == "" then "(empty)" else r.lastName
             reason := "Missing required fields: " ++
               String.intercalate ", " (missingFields r) }] }
    else
      match jsLookup om (lowerString r.orgName) with
      | none =>
          { st with
            total := st.total + 1
            errors := st.errors ++
              [{ row := rowNum
                 firstName := r.firstName
                 lastName := r.lastName
                 reason := "Organization \"" ++ r.orgName ++
                   "\" not found" }] }
      | some companyId =>
          match jsLookup em (lowerString r.eventName) with
          | none =>
              { st with
                total := st.total + 1
                errors := st.errors ++
                  [{ row := rowNum
                     firstName := r.firstName
                     lastName := r.lastName
                     reason := "Event \"" ++ r.eventName ++
                       "\" not found" }] }
          | some eventId =>
              if r.phone != "" && !(phoneOk r.phone) then
                { st with
                  total := st.total + 1
                  errors := st.errors ++
                    [{ row := rowNum
                       firstName := r.firstName
                       lastName := r.lastName
                       reason := "Invalid phone format \"" ++ r.phone ++
                         "\". Expected: 000-000-0000" }] }
              else
                { st with
                  total := st.total + 1
                  success := st.success + 1
                  created := st.created ++
                    [{ first_name := r.firstName
                       last_name := r.lastName
                       email := r.email
                       phone := r.phone
                       company_id := companyId }]
                  assignedEvents := st.assignedEvents ++ [eventId] }

/-- The loop over the data rows, starting at spreadsheet row 2 (row 1 is
the header). -/
def processRows (om em : List (String × Nat)) :
    Nat → List ImportRow → ImportState → ImportState
  | _, [], st => st
  | rowNum, r :: rest, st =>
      processRows om em (rowNum + 1) rest (processRow om em st rowNum r)

/-- The initial accumulated state of `handleFileUpload`. -/
def initialImportState : ImportState :=
  { total := 0, success := 0, errors := [], created := [],
    assignedEvents := [] }

/-- From `handleFileUpload`: process every data row starting at row 2. -/
def handleFileUpload (om em : List (String × Nat))
    (rows : List ImportRow) : ImportState :=
  processRows om em 2 rows initialImportState

/-- A row passes every validation of the import loop. -/
def rowValid (om em : List (String × Nat)) (r : ImportRow) : Bool :=
  !(emptyRow r) && (missingFields r).isEmpty &&
    (jsLookup om (lowerString r.orgName)).isSome &&
    (jsLookup em (lowerString r.eventName)).isSome &&
    (r.phone == "" || phoneOk r.phone)

/-- The spreadsheet row numbers of the non-empty rows that fail
validation, starting the numbering at `n`. -/
def invalidRowNumbers (om em : List (String × Nat)) :
    Nat → List ImportRow → List Nat
  | _, [] => []
  | n, r :: rest =>
      (if !(emptyRow r) && !(rowValid om em r) then [n] else []) ++
        invalidRowNumbers om em (n + 1) rest

/-- An all-empty row takes the skip branch. -/
lemma processRow_empty (om em : List (String × Nat)) (st : ImportState)
    (n : Nat) (r : ImportRow) (h : emptyRow r = true) :
    processRow om em st n r = st := by
  unfold processRow
  rw [if_pos h]

/-- A non-empty row that fails validation appends exactly one error entry
carrying its row number and changes nothing else but the total. -/
lemma processRow_invalid (om em : List (String × Nat)) (st : ImportState)
    (n : Nat) (r : ImportRow) (hE : emptyRow r = false)
    (hV : rowValid om em r = false) :
    ∃ er : UploadError, er.row = n ∧
      processRow om em st n r =
        { st with total := st.total + 1, errors := st.errors ++ [er] } := by
  by_cases hM : (missingFields r).isEmpty = true
  · cases hO : jsLookup om (lowerString r.orgName) with
    | none =>
        refine ⟨{ row := n, firstName := r.firstName,
                  lastName := r.lastName,
                  reason := "Organization \"" ++ r.orgName ++
                    "\" not found" }, rfl, ?_⟩
        simp [processRow, hE, hM, hO]
    | some companyId =>
        cases hEv : jsLookup em (lowerString r.eventName) with
        | none =>
            refine ⟨{ row := n, firstName := r.firstName,
                      lastName := r.lastName,
                      reason := "Event \"" ++ r.eventName ++
                        "\" not found" }, rfl, ?_⟩
            simp [processRow, hE, hM, hO, hEv]
        | some eventId =>
            by_cases hP : (r.phone != "" && !(phoneOk r.phone)) = true
            · refine ⟨{ row := n, firstName := r.firstName,
                        lastName := r.lastName,
                        reason := "Invalid phone format \"" ++ r.phone ++
                          "\". Expected: 000-000-0000" }, rfl, ?_⟩
              simp [processRow, hE, hM, hO, hEv, hP]
            · exfalso
              have hPh : (r.phone == "" || phoneOk r.phone) = true := by
                revert hP
                cases hb : r.phone == "" <;> cases hk : phoneOk r.phone <;>
                  simp [bne, hb, hk]
              have hvt : rowValid om em r = true := by
                simp [rowValid, hE, hM, hO, hEv, hPh]
              simp [hvt] at hV
  · refine ⟨{ row := n,
              firstName := if r.firstName == "" then "(empty)"
                else r.firstName,
              lastName := if r.lastName == "" then "(empty)"
                else r.lastName,
              reason := "Missing required fields: " ++
                String.intercalate ", " (missingFields r) }, rfl, ?_⟩
    simp only [processRow, hE, Bool.false_eq_true, if_false]
    rw [if_pos (by simp [hM])]

/-- A valid row inserts the visitor payload and one event assignment and
counts one success. -/
lemma processRow_valid (om em : List (String × Nat)) (st : ImportState)
    (n : Nat) (r : ImportRow) (hE : emptyRow r = false)
    (hV : rowValid om em r = true) :
    ∃ eid : Nat, processRow om em st n r =
      { st with
        total := st.total + 1
        success := st.success + 1
        created := st.created ++ [payloadOf om r]
        assignedEvents := st.assignedEvents ++ [eid] } := by
  have hparts := hV
  unfold rowValid at hparts
  simp only [Bool.and_eq_true] at hparts
  obtain ⟨⟨⟨⟨-, hM⟩, hOs⟩, hEvs⟩, hPh⟩ := hparts
  obtain ⟨companyId, hO⟩ := Option.isSome_iff_exists.mp hOs
  obtain ⟨eventId, hEv⟩ := Option.isSome_iff_exists.mp hEvs
  have hP : (r.phone != "" && !(phoneOk r.phone)) = false := by
    revert hPh
    cases hb : r.phone == "" <;> cases hk : phoneOk r.phone <;>
      simp [bne, hb, hk]
  refine ⟨eventId, ?_⟩
  have hpay : payloadOf om r =
      { first_name := r.firstName, last_name := r.lastName,
        email := r.email, phone := r.phone, company_id := companyId } := by
    unfold payloadOf
    rw [hO]
    rfl
  simp [processRow, hE, hM, hO, hEv, hP, hpay]

/-- Full characterization of the import loop: the reported total counts the
non-empty rows, the success count and the created visitors are exactly the
valid rows, and the error report carries exactly the row number of each
invalid non-empty row, in order. -/
lemma processRows_spec (om em : List (String × Nat))
    (rows : List ImportRow) : ∀ (n : Nat) (st : ImportState),
    (processRows om em n rows st).total =
        st.total + (rows.filter (fun r => !(emptyRow r))).length ∧
    (processRows om em n rows st).success =
        st.success + (rows.filter (rowValid om em)).length ∧
    (processRows om em n rows st).errors.map (fun er => er.row) =
        st.errors.map (fun er => er.row) ++ invalidRowNumbers om em n rows ∧
    (processRows om em n rows st).created =
        st.created ++ (rows.filter (rowValid om em)).map (payloadOf om) := by
  induction rows with
  | nil => intro n st; simp [processRows, invalidRowNumbers]
  | cons r rest ih =>
      intro n st
      have hstep : processRows om em n (r :: rest) st =
          processRows om em (n + 1) rest (processRow om em st n r) := rfl
      by_cases hE : emptyRow r = true
      · have hV : rowValid om em r = false := by simp [rowValid, hE]
        rw [hstep, processRow_empty om em st n r hE]
        obtain ⟨t1, t2, t3, t4⟩ := ih (n + 1) st
        rw [t1, t2, t3, t4]
        refine ⟨?_, ?_, ?_, ?_⟩
        · rw [List.filter_cons, if_neg (by simp [hE])]
        · rw [List.filter_cons, if_neg (by simp [hV])]
        · rw [show invalidRowNumbers om em n (r :: rest) =
              (if !(emptyRow r) && !(rowValid om em r) then [n] else []) ++
                invalidRowNumbers om em (n + 1) rest from rfl]
          rw [if_neg (by simp [hE])]
          rfl
        · rw [List.filter_cons, if_neg (by simp [hV])]
      · rw [Bool.not_eq_true] at hE
        by_cases hV : rowValid om em r = true
        · obtain ⟨eid, hpr⟩ := processRow_valid om em st n r hE hV
          rw [hstep, hpr]
          obtain ⟨t1, t2, t3, t4⟩ := ih (n + 1)
            { st with
              total := st.total + 1
              success := st.success + 1
              created := st.created ++ [payloadOf om r]
              assignedEvents := st.assignedEvents ++ [eid] }
          rw [t1, t2, t3, t4]
          refine ⟨?_, ?_, ?_, ?_⟩
          · rw [List.filter_cons, if_pos (by simp [hE])]
            simp only [List.length_cons]
            omega
          · rw [List.filter_cons, if_pos hV]
            simp only [List.length_cons]
            omega
          · rw [show invalidRowNumbers om em n (r :: rest) =
                (if !(emptyRow r) && !(rowValid om em r) then [n] else []) ++
                  invalidRowNumbers om em (n + 1) rest from rfl]
            rw [if_neg (by simp [hV])]
            rfl
          · rw [List.filter_cons, if_pos hV]
            simp
        · rw [Bool.not_eq_true] at hV
          obtain ⟨er, her, hpr⟩ := processRow_invalid om em st n r hE hV
          rw [hstep, hpr]
          obtain ⟨t1, t2, t3, t4⟩ := ih (n + 1)
            { st with
              total := st.total + 1
              errors := st.errors ++ [er] }
          rw [t1, t2, t3, t4]
          refine ⟨?_, ?_, ?_, ?_⟩
          · rw [List.filter_cons, if_pos (by simp [hE])]
            simp only [List.length_cons]
            omega
          · rw [List.filter_cons, if_neg (by simp [hV])]
          · rw [show invalidRowNumbers om em n (r :: rest) =
                (if !(emptyRow r) && !(rowValid om em r) then [n] else []) ++
                  invalidRowNumbers om em (n + 1) rest from rfl]
            rw [if_pos (by simp [hE, hV])]
            simp [her]
          · rw [List.filter_cons, if_neg (by simp [hV])]

/-- The ten-row batch of the claim: data rows at spreadsheet rows 2–11;
only the row numbered 5 is invalid (malformed phone). -/
def exBatch : List ImportRow :=
  [{ firstName := "F1", lastName := "L1", email := "f1@x.com",
     phone := "", orgName := "Acme", eventName := "Summit (Jan 1, 2026)" },
   { firstName := "F2", lastName := "L2", email := "f2@x.com",
     phone := "555-123-4567", orgName := "Acme",
     eventName := "Summit (Jan 1, 2026)" },
   { firstName := "F3", lastName := "L3", email := "f3@x.com",
     phone := "", orgName := "Acme", eventName := "Summit (Jan 1, 2026)" },
   { firstName := "F4", lastName := "L4", email := "f4@x.com",
     phone := "12345", orgName := "Acme",
     eventName := "Summit (Jan 1, 2026)" },
   { firstName := "F5", lastName := "L5", email := "f5@x.com",
     phone := "", orgName := "Acme", eventName := "Summit (Jan 1, 2026)" },
   { firstName := "F6", lastName := "L6", email := "f6@x.com",
     phone := "", orgName := "Acme", eventName := "Summit (Jan 1, 2026)" },
   { firstName := "F7", lastName := "L7", email := "f7@x.com",
     phone := "", orgName := "Acme", eventName := "Summit (Jan 1, 2026)" },
   { firstName := "F8", lastName := "L8", email := "f8@x.com",
     phone := "", orgName := "Acme", eventName := "Summit (Jan 1, 2026)" },
   { firstName := "F9", lastName := "L9", email := "f9@x.com",
     phone := "", orgName := "Acme", eventName := "Summit (Jan 1, 2026)" },
   { firstName := "F10", lastName := "L10", email := "f10@x.com",
     phone := "", orgName := "Acme", eventName := "Summit (Jan 1, 2026)" }]

/-- Lookup maps as built before the loop (lowercased keys). -/
def exOrgMap : List (String × Nat) := [("acme", 1)]

def exEventMap : List (String × Nat) := [("summit (jan 1, 2026)", 9)]

/-- C6: (general part) every import batch reports one success and one
created visitor per valid row, and exactly one error entry per invalid
non-empty row, carrying that row's spreadsheet row number; (instance) on
the ten-row batch whose row 5 has a malformed phone, the report is
`success = 9`, one error entry referencing row 5, nine created visitors,
total 10. -/
theorem import_row_isolation :
    (∀ (om em : List (String × Nat)) (rows : List ImportRow),
      (handleFileUpload om em rows).success =
          (rows.filter (rowValid om em)).length ∧
      (handleFileUpload om em rows).errors.map (fun er => er.row) =
          invalidRowNumbers om em 2 rows ∧
      (handleFileUpload om em rows).created =
          (rows.filter (rowValid om em)).map (payloadOf om) ∧
      (handleFileUpload om em rows).total =
          (rows.filter (fun r => !(emptyRow r))).length) ∧
    (handleFileUpload exOrgMap exEventMap exBatch).success = 9 ∧
    (handleFileUpload exOrgMap exEventMap exBatch).errors.map
        (fun er => er.row) = [5] ∧
    (handleFileUpload exOrgMap exEventMap exBatch).created.length = 9 ∧
    (handleFileUpload exOrgMap exEventMap exBatch).total = 10 := by
  refine ⟨?_, by decide, by decide, by decide, by decide⟩
  intro om em rows
  obtain ⟨t1, t2, t3, t4⟩ := processRows_spec om em rows 2 initialImportState
  refine ⟨?_, ?_, ?_, ?_⟩
  · show (processRows om em 2 rows initialImportState).success = _
    rw [t2]
    simp [initialImportState]
  · show ((processRows om em 2 rows initialImportState).errors.map
      (fun er => er.row)) = _
    rw [t3]
    simp [initialImportState]
  · show (processRows om em 2 rows initialImportState).created = _
    rw [t4]
    simp [initialImportState]
  · show (processRows om em 2 rows initialImportState).total = _
    rw [t1]
    simp [initialImportState]

/-- C10: a data row whose six cells are all empty is skipped entirely:
processing the batch with the empty row is the same as processing the rest
of the batch (at the following row numbers) — no effect on the total, the
error list, or the created visitors. -/
theorem empty_row_skipped (om em : List (String × Nat)) (n : Nat)
    (r : ImportRow) (rest : List ImportRow) (st : ImportState)
    (h : emptyRow r = true) :
    processRows om em n (r :: rest) st = processRows om em (n + 1) rest st := by
  show processRows om em (n + 1) rest (processRow om em st n r) =
    processRows om em (n + 1) rest st
  rw [processRow_empty om em st n r h]

/-- Witness for C10: prepending an all-empty row to the ten-row batch
leaves the processing of the batch unchanged. -/
theorem empty_row_skipped_witness :
    processRows exOrgMap exEventMap 2
      ({ firstName := "", lastName := "", email := "", phone := "",
         orgName := "", eventName := "" } :: exBatch) initialImportState =
    processRows exOrgMap exEventMap 3 exBatch initialImportState :=
  empty_row_skipped exOrgMap exEventMap 2
    { firstName := "", lastName := "", email := "", phone := "",
      orgName := "", eventName := "" } exBatch initialImportState (by decide)

end VisitorApp
